import Mathlib

/-!
Verification development for a small retrieval-augmented-generation (RAG)
review service.  The repository consists of:
  vectorSearch.py  -- CSV review store, chunker, Chroma vector-store wrapper
  models.py        -- pydantic request models (rating bounds 0..5)
  routes.py        -- the two HTTP endpoints (add_review, ask_question)
  dependencies.py  -- the process-wide RAG-chain handle (get/set)
  main.py          -- RAG chain construction (retriever k = 5)
  app.py           -- startup wiring

The Python code is shallowly embedded below: file-system state is passed
explicitly, external collaborators (the text splitter of langchain, the
embedding model, the LLM) are parameters, floats are rationals, and the
side-effecting calls of the add-review pipeline are recorded in an explicit
event trace in the order the source performs them.
-/

namespace RestaurantRAG

/-- Exact embedding of models.py ReviewInput: title, review_content,
rating (float, constrained by Field ge 0.0 le 5.0 -- the constraint itself
is applied in add_review_request below, as the framework applies it before
the endpoint body runs), optional date string. -/
structure ReviewInput where
  title : String
  review_content : String
  rating : Rat
  date : Option String
deriving Repr, DecidableEq

/-- One data row of the review store CSV (columns Title, Date, Rating,
Review), record-level view: the parsed fields of the row. -/
structure ReviewRow where
  title : String
  date : String
  rating : Rat
  review : String
deriving Repr, DecidableEq

/-- Embedding of vectorSearch.py CSV_COLUMNS. -/
def CSV_COLUMNS : List String := ["Title", "Date", "Rating", "Review"]

/-- Embedding of vectorSearch.py RETRIEVER_K. -/
def RETRIEVER_K : Nat := 5

/-- Record-level view of the review store file: its header columns and its
parsed data rows.  pandas read_csv parses the file into exactly these. -/
structure CsvFile where
  header : List String
  rows : List ReviewRow
deriving Repr, DecidableEq

/-- Embedding of a langchain Document as used by this repository: the
page_content string, the three metadata keys this code writes (rating,
date, original_csv_row_id -- the last one optional because
chunk_documents reads it with a default), and the optional id. -/
structure Document where
  page_content : String
  meta_rating : Rat
  meta_date : String
  meta_original_csv_row_id : Option String
  id : Option String
deriving Repr, DecidableEq

/-! ## Byte-level model of the file section of add_review_to_csv_and_db

add_review_to_csv_and_db opens the CSV in mode a+, seeks to the end, and
when the file is non-empty reads its last character: if that character is
not a newline it appends one.  It then lets pandas to_csv append the row,
with header written exactly when the file is empty (write_header is
"not exists or st_size == 0", and the file always exists at that point).
The file content is modelled as a String. -/

/-- Header line written by ensure_csv_exists (pandas to_csv of an empty
DataFrame with columns CSV_COLUMNS, no quoting needed). -/
def HEADER_LINE : String := "Title,Date,Rating,Review\n"

/-- Header line written by to_csv with header true and QUOTE_ALL in
add_review_to_csv_and_db. -/
def HEADER_LINE_QUOTED : String :=
  "\"Title\",\"Date\",\"Rating\",\"Review\"\n"

/-- Embedding of the newline-fixing block of add_review_to_csv_and_db:
when the file is non-empty and its last character is not a newline, a
newline is appended; otherwise the content is untouched. -/
def ensure_trailing_newline (c : String) : String :=
  if c.length > 0 then
    if c.data.getLast? ≠ some ('\n') then c ++ ("\n") else c
  else c

/-- Byte-level embedding of the whole file-writing section of
add_review_to_csv_and_db: ensure_csv_exists creates a header-only file if
the file is missing, then the trailing newline is fixed, then to_csv
appends (header line first exactly when the file is empty, then the
serialized row, whose text is the parameter rowLine). -/
def add_review_file_write (file : Option String) (rowLine : String) : String :=
  let content := match file with
    | none => HEADER_LINE
    | some c => c
  let c1 := ensure_trailing_newline content
  let write_header := c1.length == 0
  c1 ++ (if write_header then HEADER_LINE_QUOTED else "") ++ rowLine

/-- Boolean test: the string ends with a newline character. -/
def endsInNewlineB (s : String) : Bool :=
  s.data.getLast? == some ('\n')

/-- Boolean test: the string ends with exactly one newline character,
that is, its last character is a newline and its second-to-last is not. -/
def endsInExactlyOneNewlineB (s : String) : Bool :=
  (s.data.getLast? == some ('\n'))
    && !(s.data.dropLast.getLast? == some ('\n'))

/-! ## Record-level model of the store and the pipeline -/

/-- Embedding of ensure_csv_exists (vectorSearch.py): when the file does
not exist it is created empty with columns CSV_COLUMNS; the resulting
file state is returned (the Python version mutates the file system). -/
def ensure_csv_exists : Option CsvFile → CsvFile
  | none => ⟨CSV_COLUMNS, []⟩
  | some f => f

/-- Embedding of load_reviews_from_csv: ensures the CSV exists, reads it
with pandas, and turns row i into a Document with page_content
"Title: {t}\nReview: {r}", the three metadata entries the code writes,
and id "review_doc_{i}".  Returns the documents and the (possibly just
created) file state. -/
def load_reviews_from_csv (file : Option CsvFile) :
    List Document × CsvFile :=
  let f := ensure_csv_exists file
  (f.rows.enum.map (fun p =>
    { page_content :=
        ("Title: ") ++ p.2.title ++ ("\nReview: ") ++ p.2.review
      meta_rating := p.2.rating
      meta_date := p.2.date
      meta_original_csv_row_id := some (toString p.1)
      id := some (("review_doc_") ++ toString p.1) }), f)

/-- Embedding of the split_documents call of the langchain
RecursiveCharacterTextSplitter as chunk_documents uses it: the text of each document
page_content is cut into pieces by the splitting function (an external
collaborator, taken as a parameter), each piece becomes a fresh Document
that inherits the metadata of the parent and carries no id, and the per-document
chunk lists are concatenated in document order. -/
def split_documents (split : String → List String)
    (docs : List Document) : List Document :=
  docs.flatMap (fun d =>
    (split d.page_content).map (fun t =>
      { d with page_content := t, id := none }))

/-- Embedding of chunk_documents (vectorSearch.py): split all documents,
then assign ids by enumerating the flattened chunk list: chunk number i of
that whole list gets id "review_chunk_{original_csv_row_id}_{i}", where
original_csv_row_id is read from the metadata of the chunk with default
"unknown". -/
def chunk_documents (split : String → List String)
    (documents : List Document) : List Document :=
  let chunked_documents := split_documents split documents
  chunked_documents.enum.map (fun p =>
    let original_doc_id := p.2.meta_original_csv_row_id.getD ("unknown")
    { p.2 with
      id := some (("review_chunk_") ++ original_doc_id ++ ("_")
                    ++ toString p.1) })

/-- Chunk ids as claim C1 states them (written from the claim, for
comparison with chunk_documents): id pattern "chunk_{row_id}_{position}"
with position counted within the own chunk list of each review, restarting at
0 for every review. -/
def claimed_chunk_ids (split : String → List String)
    (docs : List Document) : List String :=
  docs.flatMap (fun d =>
    ((split d.page_content).enum).map (fun p =>
      ("chunk_") ++ (d.meta_original_csv_row_id.getD ("unknown"))
        ++ ("_") ++ toString p.1))

/-- File-system state the service manipulates: the review store CSV and
the on-disk Chroma directory.  The Chroma directory is none when it does
not exist or is an empty directory (the test os.path.exists and
os.listdir of get_vector_store), and some entries when it exists and is
populated, entries being the indexed documents it holds. -/
structure FsState where
  csv : Option CsvFile
  db : Option (List Document)
deriving Repr, DecidableEq

/-- Embedding of get_vector_store (vectorSearch.py): when the Chroma
directory does not exist or is empty, perform full ingestion (load all
reviews, chunk them, Chroma.from_documents persists them all); otherwise
load the existing store and insert nothing.  Returns the entries of the store
and the resulting file-system state. -/
def get_vector_store (split : String → List String) (s : FsState) :
    List Document × FsState :=
  match s.db with
  | none =>
      let loaded := load_reviews_from_csv s.csv
      let chunked_docs := chunk_documents split loaded.1
      (chunked_docs, ⟨some loaded.2, some chunked_docs⟩)
  | some entries => (entries, s)

/-! ## Dates -/

/-- A calendar date as datetime.date.today() yields it. -/
structure PyDate where
  year : Nat
  month : Nat
  day : Nat
deriving Repr, DecidableEq

/-- Two-digit zero-padded decimal, as strftime %m and %d produce. -/
def pad2 (n : Nat) : String :=
  if n < 10 then ("0") ++ toString n else toString n

/-- Four-digit zero-padded decimal, as strftime %Y produces. -/
def pad4 (n : Nat) : String :=
  if n < 10 then ("000") ++ toString n
  else if n < 100 then ("00") ++ toString n
  else if n < 1000 then ("0") ++ toString n
  else toString n

/-- Embedding of strftime "%Y-%m-%d" on a date. -/
def strftime_Y_m_d (d : PyDate) : String :=
  pad4 d.year ++ ("-") ++ pad2 d.month ++ ("-") ++ pad2 d.day

/-! ## The add-review pipeline and the endpoints -/

/-- Side-effecting steps of the add-review pipeline, recorded in the
order the source performs them: the to_csv append to the review store,
the chunking of the new record, the add_documents insert into the vector
index, the construction of the fresh RAG chain, and the assignment of the
process-wide chain handle. -/
inductive Event where
  | appendStore
  | chunkNew
  | insertIndex
  | buildChain
  | setHandle
deriving Repr, DecidableEq

/-- Result of add_review_to_csv_and_db: the index the new row got in the
CSV (new_review_csv_index in the source), the file-system state after the
call, and the trace of store or index writes it performed. -/
structure AddReviewResult where
  row_id : Nat
  fs : FsState
  events : List Event
deriving Repr, DecidableEq

/-- Embedding of add_review_to_csv_and_db (vectorSearch.py), record
level.  Steps in source order: ensure the CSV exists; default the date to
the current date formatted "%Y-%m-%d"; fix the trailing newline (a byte-level
concern modelled separately by add_review_file_write -- it does not change
the parsed rows); append the new row with to_csv; re-read the whole CSV
and set new_review_csv_index to its length minus one; build the new
Document (no id; metadata carries rating, date and the new index); chunk
it; get the vector store (full ingestion if the Chroma directory is
missing or empty); add_documents the chunks and persist. -/
def add_review_to_csv_and_db (split : String → List String)
    (title review_content : String) (rating : Rat) (date : Option String)
    (today : PyDate) (s : FsState) : AddReviewResult :=
  let csv0 := ensure_csv_exists s.csv
  let date1 := date.getD (strftime_Y_m_d today)
  let newRow : ReviewRow := ⟨title, date1, rating, review_content⟩
  let csv1 : CsvFile := ⟨csv0.header, csv0.rows ++ [newRow]⟩
  let current_df := csv1.rows
  let new_review_csv_index := current_df.length - 1
  let new_doc : Document :=
    { page_content :=
        ("Title: ") ++ title ++ ("\nReview: ") ++ review_content
      meta_rating := rating
      meta_date := date1
      meta_original_csv_row_id := some (toString new_review_csv_index)
      id := none }
  let chunked_new_docs := chunk_documents split [new_doc]
  let store := get_vector_store split ⟨some csv1, s.db⟩
  let db1 := store.1 ++ chunked_new_docs
  ⟨new_review_csv_index, ⟨store.2.csv, some db1⟩,
    [.appendStore, .chunkNew, .insertIndex]⟩

/-- Embedding of the RAG chain of setup_rag_chain (main.py): a retriever
over the entries of the vector store with fixed k, feeding the LLM.  The LLM
itself is an external collaborator and does not appear in the state. -/
structure RagChain where
  retriever_entries : List Document
  k : Nat
deriving Repr, DecidableEq

/-- Embedding of setup_rag_chain (main.py): builds the chain from the
vector store (get_vector_store) as a retriever with k = RETRIEVER_K.
Returns the chain and the resulting file-system state. -/
def setup_rag_chain (split : String → List String) (s : FsState) :
    RagChain × FsState :=
  let store := get_vector_store split s
  (⟨store.1, RETRIEVER_K⟩, store.2)

/-- Embedding of get_updated_rag_chain (main.py): re-runs
setup_rag_chain. -/
def get_updated_rag_chain (split : String → List String) (s : FsState) :
    RagChain × FsState :=
  setup_rag_chain split s

/-- Whole-process state: the file system plus the process-wide RAG-chain
handle of dependencies.py (_rag_chain_instance, none before startup
initialization). -/
structure AppState where
  fs : FsState
  handle : Option RagChain
deriving Repr, DecidableEq

/-- An HTTP error response as HTTPException carries it. -/
structure HTTPError where
  status_code : Nat
  detail : String
deriving Repr, DecidableEq

/-- Embedding of get_rag_chain (dependencies.py): when the handle is
unset it raises HTTPException 503 with the given detail; otherwise it
yields the chain. -/
def get_rag_chain (h : Option RagChain) : Except HTTPError RagChain :=
  match h with
  | none => .error ⟨503, ("RAG system not initialized. Please try again later.")⟩
  | some c => .ok c

/-- Embedding of set_rag_chain_instance (dependencies.py): overwrites the
process-wide handle with the given chain in a single assignment. -/
def set_rag_chain_instance (st : AppState) (chain : RagChain) : AppState :=
  { st with handle := some chain }

/-- Result of the add_review endpoint: the HTTP response, the resulting
process state, and the trace of side-effecting steps. -/
structure EndpointResult where
  response : Except HTTPError String
  state : AppState
  events : List Event
deriving Repr

/-- Embedding of add_review_endpoint (routes.py), the body that runs once
the input has been validated: add_review_to_csv_and_db, then
get_updated_rag_chain, then set_rag_chain_instance, then the success
message. -/
def add_review_endpoint (split : String → List String)
    (review : ReviewInput) (today : PyDate) (st : AppState) :
    EndpointResult :=
  let added := add_review_to_csv_and_db split review.title
    review.review_content review.rating review.date today st.fs
  let updated := get_updated_rag_chain split added.fs
  let st1 := set_rag_chain_instance ⟨updated.2, st.handle⟩ updated.1
  ⟨.ok ("Review added successfully and database updated."), st1,
    added.events ++ [.buildChain, .setHandle]⟩

/-- Embedding of the framework contract around add_review_endpoint:
FastAPI validates ReviewInput against models.py (Field ge 0.0 le 5.0 on
rating) before the endpoint body runs; on violation it responds 422
Unprocessable Entity and the endpoint body is never entered, so no state
changes. -/
def add_review_request (split : String → List String)
    (review : ReviewInput) (today : PyDate) (st : AppState) :
    EndpointResult :=
  if 0 ≤ review.rating ∧ review.rating ≤ 5 then
    add_review_endpoint split review today st
  else
    ⟨.error ⟨422, ("Input validation failed: rating out of range")⟩, st, []⟩

/-- Response mapping of a retrieval chain invocation, as
ask_question_endpoint consumes it: the optional "answer" entry and the
optional "context" entry (a list of documents). -/
structure ChainResponse where
  answer : Option String
  context : Option (List Document)

/-- Embedding of models.py QuestionResponse. -/
structure QuestionResponse where
  answer : String
  retrieved_context : List String
deriving Repr, DecidableEq

/-- Embedding of ask_question_endpoint (routes.py) together with its
Depends(get_rag_chain): the dependency runs first and 503s when the
handle is unset (the chain invocation is never reached); otherwise the
chain is invoked (the invocation itself is the external collaborator
parameter invoke), the retrieved texts are the page contents of the
"context" documents defaulting to the empty list, and the answer is the
"answer" entry defaulting to "No answer generated.". -/
def ask_question_endpoint (st : AppState)
    (invoke : RagChain → String → ChainResponse) (question : String) :
    Except HTTPError QuestionResponse :=
  match get_rag_chain st.handle with
  | .error e => .error e
  | .ok rag_chain =>
      let response := invoke rag_chain question
      let retrieved_texts :=
        (response.context.getD []).map Document.page_content
      .ok ⟨response.answer.getD ("No answer generated."), retrieved_texts⟩

/-! ## Concrete inputs used by counterexamples and witnesses -/

/-- Concrete splitter: cuts the text "ab" into two chunks and keeps any
other text whole. -/
def exSplit : String → List String :=
  fun s => if s == ("ab") then [("a"), ("b")] else [s]

/-- Two loaded review documents with row ids 0 and 1; the first one
splits into two chunks under exSplit, the second into one. -/
def exDocs : List Document :=
  [⟨("ab"), 5, ("2024-01-01"), some ("0"), some ("review_doc_0")⟩,
   ⟨("c"), 4, ("2024-01-02"), some ("1"), some ("review_doc_1")⟩]

/-- A concrete current date. -/
def exToday : PyDate := ⟨2026, 10, 12⟩

/-- A fresh file system: no CSV, no Chroma directory. -/
def exFs : FsState := ⟨none, none⟩

/-- A fresh process state: fresh file system, handle unset. -/
def exState : AppState := ⟨exFs, none⟩

/-! ## C1: chunk ids -/

/-- C1, counterexample.  The claim says the id of each chunk follows the
pattern "chunk_{row_id}_{position}" with the position counted within the
own chunk list of the parent review, restarting at 0 per review
(claimed_chunk_ids writes exactly those ids).  On two reviews where the
first yields two chunks, chunk_documents instead produces
[review_chunk_0_0, review_chunk_0_1, review_chunk_1_2]: the prefix is
review_chunk_ and the position is the index in the flattened chunk list,
so the only chunk of the second review gets position 2, not 0. -/
theorem chunk_ids_differ_from_claimed :
    (chunk_documents exSplit exDocs).map Document.id
      ≠ (claimed_chunk_ids exSplit exDocs).map some := by
  decide

/-- C1, amended: the id assigned to each produced chunk is synthesized
from the row_id of the parent review (propagated to the chunk as its
original_csv_row_id metadata, default "unknown") and the position of the chunk
in the flattened chunk list of all reviews together, counted across
reviews: the chunk at global position i gets id
"review_chunk_{row_id}_{i}". -/
theorem chunk_id_uses_global_position (split : String → List String)
    (docs : List Document) (i : Nat)
    (h : i < (split_documents split docs).length) :
    ((chunk_documents split docs).map Document.id)[i]?
      = some (some (("review_chunk_")
          ++ ((split_documents split docs)[i]).meta_original_csv_row_id.getD ("unknown")
          ++ ("_") ++ toString i)) := by
  unfold chunk_documents
  simp [List.getElem?_map, List.getElem?_enum, List.getElem?_eq_getElem h]

/-- C1, witness for the amended theorem at the concrete input: the third
chunk (global position 2) of the two concrete reviews carries id
review_chunk_1_2. -/
theorem chunk_id_uses_global_position_witness :
    2 < (split_documents exSplit exDocs).length
    ∧ ((chunk_documents exSplit exDocs).map Document.id)[2]?
        = some (some ("review_chunk_1_2")) := by
  refine ⟨by decide, ?_⟩
  have h2 : 2 < (split_documents exSplit exDocs).length := by decide
  rw [chunk_id_uses_global_position exSplit exDocs 2 h2]
  rfl

/-! ## C2: rating validation -/

/-- C2: for every rating r with 0 <= r <= 5 the add_review request is
accepted and proceeds (it responds with the success message and exactly
one row is appended to the review store); for r < 0 or r > 5 the request
fails with the 422 validation error and the whole state, the review
store file included, is left unchanged. -/
theorem add_review_rating_validation (split : String → List String)
    (t rc : String) (r : Rat) (d : Option String) (today : PyDate)
    (st : AppState) :
    (0 ≤ r ∧ r ≤ 5 →
      (add_review_request split ⟨t, rc, r, d⟩ today st).response
        = .ok ("Review added successfully and database updated.")
      ∧ ∃ row : ReviewRow,
          ((add_review_request split ⟨t, rc, r, d⟩ today st).state.fs.csv.getD
              ⟨[], []⟩).rows
            = (ensure_csv_exists st.fs.csv).rows ++ [row])
    ∧ ((r < 0 ∨ 5 < r) →
      (add_review_request split ⟨t, rc, r, d⟩ today st).response
        = .error ⟨422, ("Input validation failed: rating out of range")⟩
      ∧ (add_review_request split ⟨t, rc, r, d⟩ today st).state = st) := by
  constructor
  · intro hv
    have hcond : 0 ≤ (⟨t, rc, r, d⟩ : ReviewInput).rating
        ∧ (⟨t, rc, r, d⟩ : ReviewInput).rating ≤ 5 := hv
    rw [add_review_request, if_pos hcond]
    refine ⟨rfl, ⟨⟨t, d.getD (strftime_Y_m_d today), r, rc⟩, ?_⟩⟩
    cases hdb : st.fs.db <;>
      simp [add_review_endpoint, add_review_to_csv_and_db,
        get_updated_rag_chain, setup_rag_chain, get_vector_store,
        set_rag_chain_instance, load_reviews_from_csv, ensure_csv_exists,
        hdb]
  · intro hiv
    have hcond : ¬(0 ≤ (⟨t, rc, r, d⟩ : ReviewInput).rating
        ∧ (⟨t, rc, r, d⟩ : ReviewInput).rating ≤ 5) := by
      rcases hiv with h1 | h1
      · exact fun hc => absurd hc.1 (not_le.mpr h1)
      · exact fun hc => absurd hc.2 (not_le.mpr h1)
    rw [add_review_request, if_neg hcond]
    exact ⟨rfl, rfl⟩

/-- C2, witness: rating 9/2 is accepted (success message) and rating 6
is rejected with the 422 error, leaving the fresh state untouched. -/
theorem add_review_rating_validation_witness :
    ((add_review_request exSplit ⟨("T"), ("B"), 9/2, none⟩ exToday
        exState).response
      = .ok ("Review added successfully and database updated.")
      ∧ ∃ row : ReviewRow,
          ((add_review_request exSplit ⟨("T"), ("B"), 9/2, none⟩ exToday
              exState).state.fs.csv.getD ⟨[], []⟩).rows
            = (ensure_csv_exists exState.fs.csv).rows ++ [row])
    ∧ ((add_review_request exSplit ⟨("T"), ("B"), 6, none⟩ exToday
        exState).response
      = .error ⟨422, ("Input validation failed: rating out of range")⟩
      ∧ (add_review_request exSplit ⟨("T"), ("B"), 6, none⟩ exToday
          exState).state = exState) :=
  ⟨(add_review_rating_validation exSplit ("T") ("B") (9/2) none exToday
      exState).1 (by norm_num),
   (add_review_rating_validation exSplit ("T") ("B") 6 none exToday
      exState).2 (Or.inr (by norm_num))⟩

/-! ## C3: idempotence of opening the vector store -/

/-- C3: opening the vector store twice with the store and path
unmodified in between yields the same entries (in particular the same
number of indexed entries) both times, and the second call changes
nothing on disk: it loads the existing index and inserts no entry. -/
theorem get_vector_store_idempotent (split : String → List String)
    (s : FsState) :
    (get_vector_store split (get_vector_store split s).2).1.length
        = (get_vector_store split s).1.length
    ∧ (get_vector_store split (get_vector_store split s).2).1
        = (get_vector_store split s).1
    ∧ (get_vector_store split (get_vector_store split s).2).2
        = (get_vector_store split s).2 := by
  cases hdb : s.db <;> simp [get_vector_store, hdb]

/-! ## C4: asking before initialization -/

/-- C4: for every question and every chain-invocation behavior, calling
the ask endpoint while the process-wide handle is still unset returns
exactly the 503 not-ready error of get_rag_chain -- never any other
error -- and the chain (hence the language model) is never invoked: the
result is the same for every invoke function. -/
theorem ask_before_init_returns_503 (fs : FsState)
    (invoke : RagChain → String → ChainResponse) (q : String) :
    ask_question_endpoint ⟨fs, none⟩ invoke q
      = .error ⟨503, ("RAG system not initialized. Please try again later.")⟩ :=
  rfl

/-! ## C5: trailing newline and header on append -/

/-- Helper: the newline fix keeps a non-empty file non-empty. -/
theorem ensure_trailing_newline_length_pos (c : String) (h : 0 < c.length) :
    0 < (ensure_trailing_newline c).length := by
  unfold ensure_trailing_newline
  rw [if_pos h]
  by_cases hl : c.data.getLast? ≠ some ('\n')
  · rw [if_pos hl, String.length_append]
    omega
  · rw [if_neg hl]
    exact h

/-- Helper: after the newline fix, a non-empty file ends with a
newline. -/
theorem ensure_trailing_newline_ends (c : String) (h : c ≠ "") :
    endsInNewlineB (ensure_trailing_newline c) = true := by
  have hd : c.data ≠ [] := by
    intro hd
    apply h
    cases c
    simp_all
  have hlen : 0 < c.length := List.length_pos.mpr hd
  unfold ensure_trailing_newline endsInNewlineB
  rw [if_pos hlen]
  by_cases hl : c.data.getLast? = some ('\n')
  · rw [if_neg (by simp [hl])]
    simp [hl]
  · rw [if_pos (by simp [hl])]
    rw [String.data_append]
    have hnl : ("\n" : String).data = ['\n'] := rfl
    rw [hnl, List.getLast?_concat]
    simp

/-- C5, counterexample.  The claim says the append operation guarantees
the file ends with exactly one newline before the new row is written.
On the existing non-empty file with content "a\n\n" the newline-fixing
step of add_review_to_csv_and_db leaves the content untouched (its last
character already is a newline), so the file still ends with two
newlines, not exactly one. -/
theorem trailing_newline_not_exactly_one :
    ("a\n\n" : String) ≠ ""
    ∧ ensure_trailing_newline ("a\n\n") = ("a\n\n")
    ∧ endsInExactlyOneNewlineB (ensure_trailing_newline ("a\n\n")) = false := by
  decide

/-- C5, amended: for every existing non-empty review store file, the
append operation guarantees the file ends with at least one newline
before the new row is written (it appends a newline exactly when the
last character is not one, and leaves pre-existing repeated newlines in
place), so rows never concatenate; and the header row is written only
when the file is new (where ensure_csv_exists creates it as the header
line) or empty (where to_csv writes the quoted header before the row) --
an existing non-empty file receives the new row with no header. -/
theorem append_trailing_newline_and_header (c rl : String) (h : c ≠ "") :
    endsInNewlineB (ensure_trailing_newline c) = true
    ∧ add_review_file_write (some c) rl = ensure_trailing_newline c ++ rl
    ∧ add_review_file_write none rl = HEADER_LINE ++ rl
    ∧ add_review_file_write (some ("")) rl = HEADER_LINE_QUOTED ++ rl := by
  have hd : c.data ≠ [] := by
    intro hd
    apply h
    cases c
    simp_all
  have hlen : 0 < c.length := List.length_pos.mpr hd
  refine ⟨ensure_trailing_newline_ends c h, ?_, ?_, ?_⟩
  · have hp : 0 < (ensure_trailing_newline c).length :=
      ensure_trailing_newline_length_pos c hlen
    have hb : ((ensure_trailing_newline c).length == 0) = false := by
      simp [Nat.pos_iff_ne_zero.mp hp]
    simp [add_review_file_write, hb, String.append_empty]
  · have h1 : ensure_trailing_newline HEADER_LINE = HEADER_LINE := by decide
    have h2 : (HEADER_LINE.length == 0) = false := by decide
    simp [add_review_file_write, h1, h2, String.append_empty]
  · have h1 : ensure_trailing_newline ("") = ("") := by decide
    have h2 : (("" : String).length == 0) = true := by decide
    simp [add_review_file_write, h1, h2]

/-- C5, witness for the amended theorem: the non-empty file "x" (no
trailing newline) gets one appended before the row is written, an
absent file becomes header plus row, and an empty file becomes quoted
header plus row. -/
theorem append_trailing_newline_and_header_witness :
    endsInNewlineB (ensure_trailing_newline ("x")) = true
    ∧ add_review_file_write (some ("x")) ("r\n")
        = ensure_trailing_newline ("x") ++ ("r\n")
    ∧ add_review_file_write none ("r\n") = HEADER_LINE ++ ("r\n")
    ∧ add_review_file_write (some ("")) ("r\n")
        = HEADER_LINE_QUOTED ++ ("r\n") :=
  append_trailing_newline_and_header ("x") ("r\n") (by decide)

/-! ## C6: row_id of a newly appended review -/

/-- C6: the row_id add_review assigns to the new record equals the
number of documents obtained by re-loading the whole store right after
the append, minus one -- the zero-based position of the last row of the
store at that moment. -/
theorem row_id_is_last_position_after_append (split : String → List String)
    (t rc : String) (r : Rat) (d : Option String) (today : PyDate)
    (s : FsState) :
    (add_review_to_csv_and_db split t rc r d today s).row_id
      = (load_reviews_from_csv
          (add_review_to_csv_and_db split t rc r d today s).fs.csv).1.length
        - 1 := by
  cases hdb : s.db <;>
    simp [add_review_to_csv_and_db, get_vector_store, load_reviews_from_csv,
      ensure_csv_exists, hdb, List.enum_length]

/-! ## C7: order of the add-review pipeline -/

/-- C7: every add_review call performs its side effects in source
order -- append to the review store, chunk the new record, insert the
chunks into the vector index, build the fresh chain, and only then set
the process-wide handle -- and the handle ends up wholly replaced by the
freshly constructed retriever-plus-generator chain built (by
setup_rag_chain, in one assignment) on the now-updated file-system
state. -/
theorem add_review_pipeline_order_and_swap (split : String → List String)
    (review : ReviewInput) (today : PyDate) (st : AppState) :
    (add_review_endpoint split review today st).events
      = [.appendStore, .chunkNew, .insertIndex, .buildChain, .setHandle]
    ∧ (add_review_endpoint split review today st).state.handle
      = some (setup_rag_chain split
          (add_review_endpoint split review today st).state.fs).1 :=
  ⟨rfl, rfl⟩

/-! ## C8: date defaulting -/

/-- C8: when the date argument is absent the new record is written with
the current date formatted "%Y-%m-%d"; when a date is supplied it is written
unchanged.  In both cases the new record is the last row of the store. -/
theorem date_defaults_to_today (split : String → List String)
    (t rc : String) (r : Rat) (today : PyDate) (s : FsState) :
    (((add_review_to_csv_and_db split t rc r none today s).fs.csv.getD
        ⟨[], []⟩).rows.getLast? = some ⟨t, strftime_Y_m_d today, r, rc⟩)
    ∧ ∀ ds : String,
      ((add_review_to_csv_and_db split t rc r (some ds) today s).fs.csv.getD
          ⟨[], []⟩).rows.getLast? = some ⟨t, ds, r, rc⟩ := by
  constructor
  · cases hdb : s.db <;>
      simp [add_review_to_csv_and_db, get_vector_store,
        load_reviews_from_csv, ensure_csv_exists, hdb]
  · intro ds
    cases hdb : s.db <;>
      simp [add_review_to_csv_and_db, get_vector_store,
        load_reviews_from_csv, ensure_csv_exists, hdb]

/-! ## C9: missing answer key -/

/-- C9: when the chain response carries no "answer" entry, the ask
endpoint does not fail: it returns the literal default answer
"No answer generated." together with the page contents of the
context documents of the response in order (the empty list when "context"
is absent too). -/
theorem missing_answer_defaults (st : AppState) (chain : RagChain)
    (invoke : RagChain → String → ChainResponse) (q : String)
    (hs : st.handle = some chain) (h : (invoke chain q).answer = none) :
    ask_question_endpoint st invoke q
      = .ok ⟨("No answer generated."),
          ((invoke chain q).context.getD []).map Document.page_content⟩ := by
  unfold ask_question_endpoint
  rw [hs]
  simp [get_rag_chain, h]

/-- A chain over an empty index, for the witness. -/
def exChain : RagChain := ⟨[], RETRIEVER_K⟩

/-- A retrieved document, for the witness. -/
def exDoc : Document :=
  ⟨("the crust was thin"), 5, ("2024-01-01"), some ("0"), none⟩

/-- An invocation returning no answer entry and one context document. -/
def exInvoke : RagChain → String → ChainResponse :=
  fun _ _ => ⟨none, some [exDoc]⟩

/-- C9, witness: with a set handle and an invocation whose response has
no answer entry, the endpoint returns the default answer and the one
retrieved text. -/
theorem missing_answer_defaults_witness :
    (⟨exFs, some exChain⟩ : AppState).handle = some exChain
    ∧ (exInvoke exChain ("q")).answer = none
    ∧ ask_question_endpoint ⟨exFs, some exChain⟩ exInvoke ("q")
      = .ok ⟨("No answer generated."), [("the crust was thin")]⟩ := by
  refine ⟨rfl, rfl, ?_⟩
  rw [missing_answer_defaults ⟨exFs, some exChain⟩ exChain exInvoke ("q")
    rfl rfl]
  rfl

/-! ## C10: loading a missing store file -/

/-- C10: loading all reviews when the review store file does not exist
does not fail: the file is first created empty with exactly the header
columns Title, Date, Rating, Review, and the empty document list is
returned. -/
theorem load_reviews_missing_file_creates_header :
    load_reviews_from_csv none
      = ([], ⟨[("Title"), ("Date"), ("Rating"), ("Review")], []⟩) :=
  rfl

end RestaurantRAG
